import Mathlib

/-!
Shallow embedding of the `data-world` crate (`src/lib.rs`): a two-tier
entity store (`DataWorlds`) with an immutable ("static") world and a
mutable ("dynamic") world, tagged references (`DataRef`), copy-on-write
promotion (`transfer`), accessors (`get`, `entity`, `get_mut`,
`entity_mut`) and serialization / reload orchestration.

The underlying Bevy ECS `World` is an external collaborator; it is
modelled here by `DW.World`, an association list from entity ids to
entity contents plus an optional `AppTypeRegistry` resource, following
the collaborator contract in the spec (spawn with fresh ids, lookup,
typed component insertion, resource insertion/removal).  Panics in the
Rust code are modelled by `Except Err`; the recoverable RON codec error
is the `Err.codecError` constructor.
-/

namespace DW

/-- Runtime type identifier of a registered component type
(models `TypeId` / `ComponentId` resolved through the registry). -/
abbrev TypeId := Nat

/-- Tagged reference to data stored in `DataWorlds`
(the crate's `DataRef` enum: `Null`, `Static(Entity)`, `Dynamic(Entity)`). -/
inductive DataRef where
  /-- Null pointer. -/
  | Null : DataRef
  /-- Data located in the static world. -/
  | Static (id : Nat) : DataRef
  /-- Data located in the dynamic world. -/
  | Dynamic (id : Nat) : DataRef
deriving Repr, DecidableEq

instance : Inhabited DataRef := ⟨DataRef.Null⟩

/-- Component values stored on entities: opaque payloads, which may be
plain data or tagged references (matching the crate's test components
`SomeCompoennt { data: i32 }` and `SomeRef { entity: DataRef }`). -/
inductive Val where
  | int (n : Int) : Val
  | ref (r : DataRef) : Val
deriving Repr, DecidableEq

/-- Contents of one entity: its attached components, one value per
registered type (Bevy stores at most one component per type). -/
abbrev EntityData := List (TypeId × Val)

/-- Attached component types of an entity
(models `source_ref.archetype().components()`). -/
def EntityData.keys (d : EntityData) : List TypeId := d.map Prod.fst

/-- Insert or replace the component of type `ty`
(models `ReflectComponent` applying a value to an entity: Bevy replaces
the existing component of that type or attaches a new one). -/
def EntityData.insert (d : EntityData) (ty : TypeId) (v : Val) : EntityData :=
  match d with
  | [] => [(ty, v)]
  | (t, u) :: rest => if t = ty then (t, v) :: rest else (t, u) :: EntityData.insert rest ty v

/-- Model of `AppTypeRegistry`: the set of type ids registered with full
reflective capability (`Reflect` + `ReflectComponent` + serialization). -/
abbrev Registry := List TypeId

/-- Association-list lookup of an entity id
(models `World::get_entity`, which finds the live entity with that id). -/
def lookupEnt : List (Nat × EntityData) → Nat → Option EntityData
  | [], _ => none
  | (i, d) :: rest, e => if i = e then some d else lookupEnt rest e

/-- Model of a Bevy `World` as used by the crate: a fresh-id counter,
the live entities, and the optional `AppTypeRegistry` resource. -/
structure World where
  nextId : Nat
  entities : List (Nat × EntityData)
  registry : Option Registry
deriving Repr, DecidableEq

/-- Model of `World::new()`. -/
def World.new : World := { nextId := 0, entities := [], registry := none }

/-- Model of `World::insert_resource::<AppTypeRegistry>`. -/
def World.insert_resource (w : World) (r : Registry) : World :=
  { w with registry := some r }

/-- Model of `World::remove_resource::<AppTypeRegistry>`: returns the
world without the resource and the resource if it was present. -/
def World.remove_resource (w : World) : World × Option Registry :=
  ({ w with registry := none }, w.registry)

/-- Model of `World::get_entity`. -/
def World.get_entity (w : World) (e : Nat) : Option EntityData :=
  lookupEnt w.entities e

/-- Model of `World::spawn_empty`: creates a new entity with a fresh id
and no components, returning the world and the new id. -/
def World.spawn_empty (w : World) : World × Nat :=
  ({ w with nextId := w.nextId + 1, entities := w.entities ++ [(w.nextId, [])] }, w.nextId)

/-- Model of `World::spawn(bundle)`: creates a new entity with a fresh
id carrying the given components. -/
def World.spawn (w : World) (d : EntityData) : World × Nat :=
  ({ w with nextId := w.nextId + 1, entities := w.entities ++ [(w.nextId, d)] }, w.nextId)

/-- Insert or replace one component on the entity `id`
(models writing through an `EntityWorldMut` view, and the write half of
`ReflectComponent::copy` into the target entity). -/
def World.insert_component (w : World) (id : Nat) (ty : TypeId) (v : Val) : World :=
  { w with
    entities := w.entities.map fun p => (p.1, if p.1 = id then p.2.insert ty v else p.2) }

/-- Well-formedness of the fresh-id counter: every live entity id was
allocated below `nextId`.  Every world built by the crate's own
operations satisfies this. -/
def World.wf (w : World) : Prop :=
  ∀ i ∈ w.entities.map Prod.fst, i < w.nextId

instance (w : World) : Decidable w.wf := by
  unfold World.wf; infer_instance

/-- Modelled from the spec: a snapshot (`DynamicSceneBundle` / RON text)
is represented abstractly as the sequence of entity contents it
describes; the scene/codec collaborator is out of scope of the crate
(spec section 1) and only its contract is modelled (spec section 6:
`container_from(text, registry)` populates a container with the
snapshot's entities). -/
abbrev Scene := List EntityData

/-- Modelled from the spec: spawning a snapshot into a world populates
it with the snapshot's entities (spec section 4.1, "optionally populates
each tier by spawning the corresponding snapshot's entities into it"). -/
def World.spawn_scene (w : World) (s : Scene) : World :=
  s.foldl (fun w d => (w.spawn d).1) w

/-- Abnormal outcomes of the crate's operations: the `panic!` and
`.expect(...)` sites, plus the recoverable RON codec error. -/
inductive Err where
  /-- panic "Tried to access null reference" (`entity`, `entity_mut`). -/
  | nullRef : Err
  /-- missing `AppTypeRegistry` resource (`resource()` in `transfer` and
  `serialize`, `remove_resource(..).expect(..)` in reload). -/
  | resourceMissing : Err
  /-- expect "type should be registered" / "Data should be added by
  Reflect derive" during `transfer`. -/
  | typeUnregistered : Err
  /-- panic of `World::entity` on a despawned or never-spawned id. -/
  | entityMissing : Err
  /-- recoverable `RonError` from the serialization codec. -/
  | codecError : Err
deriving Repr, DecidableEq

/-- Result of mutable data access (the crate's `DataMut<'a>` enum); an
`EntityWorldMut` view is represented by the id it addresses in the
dynamic world of the returned store. -/
inductive DataMut where
  /-- Data does not exist. -/
  | Missing : DataMut
  /-- Data was found. -/
  | Found (view : Nat) : DataMut
  /-- Data was in the static world and was moved to the dynamic world. -/
  | Moved (view : Nat) (ptr : DataRef) : DataMut
deriving Repr, DecidableEq

/-- Data storage separated into two worlds: static (immutable) and
dynamic (mutable) — the crate's `DataWorlds` resource. -/
structure DataWorlds where
  static_world : World
  dynamic_world : World
deriving Repr, DecidableEq

/-- Model of `DataWorlds::from_scenes`: builds one world per tier,
inserts a copy of the registry into each, and optionally spawns the
corresponding scene into it. -/
def DataWorlds.from_scenes (type_registry : Registry)
    (static_scene dynamic_scene : Option Scene) : DataWorlds :=
  let static_world := World.new.insert_resource type_registry
  let static_world :=
    match static_scene with
    | some s => static_world.spawn_scene s
    | none => static_world
  let dynamic_world := World.new.insert_resource type_registry
  let dynamic_world :=
    match dynamic_scene with
    | some s => dynamic_world.spawn_scene s
    | none => dynamic_world
  { static_world := static_world, dynamic_world := dynamic_world }

/-- Model of `DataWorlds::modify_static_data`: runs a caller-supplied
one-shot system against the static world only (`run_system_once`); the
system may read and modify that world arbitrarily and return a value. -/
def DataWorlds.modify_static_data {Out : Type} (dw : DataWorlds)
    (system : World → World × Out) : DataWorlds × Out :=
  let r := system dw.static_world
  ({ dw with static_world := r.1 }, r.2)

/-- Model of `DataWorlds::reload_dynamic_data`: builds a fresh dynamic
world, moves the `AppTypeRegistry` resource out of the old dynamic world
into it (the `.expect` on a missing resource is `Err.resourceMissing`),
spawns the scene, and replaces the dynamic world. -/
def DataWorlds.reload_dynamic_data (dw : DataWorlds) (dynamic_scene : Scene) :
    Except Err DataWorlds :=
  match dw.dynamic_world.remove_resource with
  | (_, none) => .error .resourceMissing
  | (_, some reg) =>
    let w := World.new.insert_resource reg
    let w := w.spawn_scene dynamic_scene
    .ok { dw with dynamic_world := w }

/-- Does the registry cover every component of every entity of the
world, as the reflective RON codec requires. -/
def serializable (reg : Registry) (w : World) : Bool :=
  w.entities.all fun p => p.2.all fun c => decide (c.1 ∈ reg)

/-- Modelled from the spec: `DynamicScene::from_world` followed by
`serialize_ron` extracts the tier's entity contents as the snapshot,
failing with a codec error when some attached value's type lacks the
required reflective capability (spec section 4.1, `serialize`).  The
`resource::<AppTypeRegistry>()` call panics when the resource is
missing. -/
def serialize_world_ron (w : World) : Except Err Scene :=
  match w.registry with
  | none => .error .resourceMissing
  | some reg =>
    if serializable reg w then .ok (w.entities.map Prod.snd)
    else .error .codecError

/-- Model of `DataWorlds::serialize_static_ron`. -/
def DataWorlds.serialize_static_ron (dw : DataWorlds) : Except Err Scene :=
  serialize_world_ron dw.static_world

/-- Model of `DataWorlds::serialize_dynamic_ron`. -/
def DataWorlds.serialize_dynamic_ron (dw : DataWorlds) : Except Err Scene :=
  serialize_world_ron dw.dynamic_world

/-- Model of `DataWorlds::get`: resolves a tagged reference to a
read-only view (the entity's contents); `none` for `Null` or an id
absent from the addressed world. -/
def DataWorlds.get (dw : DataWorlds) (ptr : DataRef) : Option EntityData :=
  match ptr with
  | .Static e => dw.static_world.get_entity e
  | .Dynamic e => dw.dynamic_world.get_entity e
  | .Null => none

/-- Model of `DataWorlds::entity`: like `get` but panicking (Bevy's
`World::entity` panics on a missing id; the `Null` arm panics with
"Tried to access null reference"). -/
def DataWorlds.entity (dw : DataWorlds) (ptr : DataRef) : Except Err EntityData :=
  match ptr with
  | .Static e =>
    match dw.static_world.get_entity e with
    | some d => .ok d
    | none => .error .entityMissing
  | .Dynamic e =>
    match dw.dynamic_world.get_entity e with
    | some d => .ok d
    | none => .error .entityMissing
  | .Null => .error .nullRef

/-- One `ReflectComponent::copy` per attached component type of the
source entity: each copy panics if the type is not registered (the
`.expect("type should be registered")` / `.data::<ReflectComponent>()`
chain), and otherwise duplicates that component's value into the target
entity of the dynamic world.  The source value is read from the static
world, which the loop never modifies, so the pairs of the source
entity's contents are copied as read. -/
def copyAll (reg : Registry) (src : EntityData) (dyn : World) (target : Nat) :
    Except Err World :=
  match src with
  | [] => .ok dyn
  | (ty, v) :: rest =>
    if ty ∈ reg then copyAll reg rest (dyn.insert_component target ty v) target
    else .error .typeUnregistered

/-- Model of `DataWorlds::transfer`: looks up the source entity in the
static world (`?` returns `none` with no mutation), spawns an empty
target in the dynamic world, reads the static world's
`AppTypeRegistry` resource (panic when absent), and copies every
attached component of the source into the target. -/
def DataWorlds.transfer (dw : DataWorlds) (entity : Nat) :
    Except Err (DataWorlds × Option Nat) :=
  match dw.static_world.get_entity entity with
  | none => .ok (dw, none)
  | some source_ref =>
    let p := dw.dynamic_world.spawn_empty
    match dw.static_world.registry with
    | none => .error .resourceMissing
    | some reg =>
      match copyAll reg source_ref p.1 p.2 with
      | .error e => .error e
      | .ok dyn => .ok ({ dw with dynamic_world := dyn }, some p.2)

/-- Model of `DataWorlds::get_mut`: resolves a tagged reference for
mutable access; static data is transferred into the dynamic world. -/
def DataWorlds.get_mut (dw : DataWorlds) (ptr : DataRef) :
    Except Err (DataWorlds × DataMut) :=
  match ptr with
  | .Static e =>
    match dw.transfer e with
    | .error err => .error err
    | .ok (dw1, none) => .ok (dw1, .Missing)
    | .ok (dw1, some entity) =>
      match dw1.dynamic_world.get_entity entity with
      | none => .ok (dw1, .Missing)
      | some _ => .ok (dw1, .Moved entity (.Dynamic entity))
  | .Dynamic e =>
    match dw.dynamic_world.get_entity e with
    | none => .ok (dw, .Missing)
    | some _ => .ok (dw, .Found e)
  | .Null => .ok (dw, .Missing)

/-- Model of `DataWorlds::entity_mut`: identical to `get_mut` except
that `Null` panics with "Tried to access null reference". -/
def DataWorlds.entity_mut (dw : DataWorlds) (ptr : DataRef) :
    Except Err (DataWorlds × DataMut) :=
  match ptr with
  | .Static e =>
    match dw.transfer e with
    | .error err => .error err
    | .ok (dw1, none) => .ok (dw1, .Missing)
    | .ok (dw1, some entity) =>
      match dw1.dynamic_world.get_entity entity with
      | none => .ok (dw1, .Missing)
      | some _ => .ok (dw1, .Moved entity (.Dynamic entity))
  | .Dynamic e =>
    match dw.dynamic_world.get_entity e with
    | none => .ok (dw, .Missing)
    | some _ => .ok (dw, .Found e)
  | .Null => .error .nullRef

/-- Caller-side mutation through a mutable view into the dynamic world
(writing a component value via the `EntityWorldMut` returned in
`Found`/`Moved`, as in the crate's test `b.get_mut::<SomeCompoennt>()`). -/
def DataWorlds.set_dynamic (dw : DataWorlds) (id : Nat) (ty : TypeId) (v : Val) :
    DataWorlds :=
  { dw with dynamic_world := dw.dynamic_world.insert_component id ty v }

/-- Both worlds hold the `AppTypeRegistry` resource — the invariant the
crate's internal `.expect`/`resource()` calls rely on. -/
def regInv (dw : DataWorlds) : Prop :=
  dw.static_world.registry.isSome ∧ dw.dynamic_world.registry.isSome

instance (dw : DataWorlds) : Decidable (regInv dw) := by
  unfold regInv; infer_instance

/-- Concrete component data mirroring the crate's test: entity A holds
Counter = 42. -/
def demoA : EntityData := [(0, Val.int 42)]

/-- Concrete component data mirroring the crate's test: entity B holds
Counter = 21 and a Link to the static entity A. -/
def demoB : EntityData := [(0, Val.int 21), (1, Val.ref (DataRef.Static 0))]

/-- Registry registering the two demo component types. -/
def demoRegistry : Registry := [0, 1]

/-- Concrete two-tier store: static tier populated with A and B, dynamic
tier empty, mirroring the crate's test setup. -/
def demoDW : DataWorlds :=
  DataWorlds.from_scenes demoRegistry (some [demoA, demoB]) none

/-- Did the operation complete normally (no panic)? -/
def exOk {α : Type} : Except Err α → Bool
  | .ok _ => true
  | .error _ => false

/-! Helper lemmas about the collaborator model. -/

lemma lookupEnt_append_of_none (l1 l2 : List (Nat × EntityData)) (j : Nat)
    (h : lookupEnt l1 j = none) : lookupEnt (l1 ++ l2) j = lookupEnt l2 j := by
  induction l1 with
  | nil => rfl
  | cons p rest ih =>
    obtain ⟨i, d⟩ := p
    by_cases hij : i = j
    · simp [lookupEnt, hij] at h
    · simp only [lookupEnt, hij, if_false, List.cons_append] at h ⊢
      exact ih h

lemma lookupEnt_append_of_some (l1 l2 : List (Nat × EntityData)) (j : Nat)
    (d : EntityData) (h : lookupEnt l1 j = some d) :
    lookupEnt (l1 ++ l2) j = some d := by
  induction l1 with
  | nil => simp [lookupEnt] at h
  | cons p rest ih =>
    obtain ⟨i, d'⟩ := p
    by_cases hij : i = j
    · simp only [lookupEnt, hij, if_true, List.cons_append] at h ⊢
      exact h
    · simp only [lookupEnt, hij, if_false, List.cons_append] at h ⊢
      exact ih h

lemma lookupEnt_eq_none (l : List (Nat × EntityData)) (j : Nat)
    (h : ∀ i ∈ l.map Prod.fst, i ≠ j) : lookupEnt l j = none := by
  induction l with
  | nil => rfl
  | cons p rest ih =>
    have hp : p.1 ≠ j := h p.1 (by simp)
    obtain ⟨i, d⟩ := p
    simp only [lookupEnt, hp, if_false]
    exact ih fun i hi => h i (by simp [hi])

lemma lookupEnt_map_insert (l : List (Nat × EntityData)) (id : Nat)
    (ty : TypeId) (v : Val) (j : Nat) :
    lookupEnt (l.map fun p => (p.1, if p.1 = id then p.2.insert ty v else p.2)) j
      = if j = id then (lookupEnt l j).map (fun d => d.insert ty v)
        else lookupEnt l j := by
  induction l with
  | nil => cases Decidable.em (j = id) <;> simp_all [lookupEnt]
  | cons p rest ih =>
    obtain ⟨i, d⟩ := p
    simp only [List.map_cons, lookupEnt]
    by_cases hij : i = j
    · subst hij
      by_cases hiid : i = id <;> simp [lookupEnt, hiid]
    · simp [lookupEnt, hij, ih]

/-! Lemmas about `World` operations. -/

lemma World.get_entity_insert_component (w : World) (id : Nat) (ty : TypeId)
    (v : Val) (j : Nat) :
    (w.insert_component id ty v).get_entity j
      = if j = id then (w.get_entity id).map (fun d => d.insert ty v)
        else w.get_entity j := by
  unfold World.get_entity World.insert_component
  by_cases hj : j = id
  · subst hj
    simp [lookupEnt_map_insert]
  · simp [lookupEnt_map_insert, hj]

lemma World.insert_component_registry (w : World) (id : Nat) (ty : TypeId)
    (v : Val) : (w.insert_component id ty v).registry = w.registry := rfl

lemma World.insert_component_nextId (w : World) (id : Nat) (ty : TypeId)
    (v : Val) : (w.insert_component id ty v).nextId = w.nextId := rfl

lemma World.insert_component_ids (w : World) (id : Nat) (ty : TypeId) (v : Val) :
    (w.insert_component id ty v).entities.map Prod.fst
      = w.entities.map Prod.fst := by
  unfold World.insert_component
  simp only [List.map_map]
  refine List.map_congr_left fun p _ => ?_
  by_cases hp : p.1 = id <;> simp [hp]

lemma World.insert_component_wf (w : World) (id : Nat) (ty : TypeId) (v : Val)
    (h : w.wf) : (w.insert_component id ty v).wf := by
  intro i hi
  rw [World.insert_component_ids] at hi
  exact h i hi

lemma World.spawn_empty_fresh (w : World) (h : w.wf) :
    w.get_entity w.nextId = none := by
  apply lookupEnt_eq_none
  intro i hi
  exact Nat.ne_of_lt (h i hi)

lemma World.get_entity_spawn_empty_self (w : World) (h : w.wf) :
    (w.spawn_empty).1.get_entity w.nextId = some [] := by
  unfold World.spawn_empty World.get_entity
  simp only
  rw [lookupEnt_append_of_none _ _ _ (World.spawn_empty_fresh w h)]
  simp [lookupEnt]

lemma World.get_entity_spawn_empty_other (w : World) (j : Nat)
    (h : j ≠ w.nextId) : (w.spawn_empty).1.get_entity j = w.get_entity j := by
  unfold World.spawn_empty World.get_entity
  simp only
  cases hl : lookupEnt w.entities j with
  | none =>
    rw [lookupEnt_append_of_none _ _ _ hl]
    have h' : ¬w.nextId = j := fun hh => h hh.symm
    simp [lookupEnt, h']
  | some d => exact lookupEnt_append_of_some _ _ _ _ hl

lemma World.spawn_empty_wf (w : World) (h : w.wf) : (w.spawn_empty).1.wf := by
  intro i hi
  unfold World.spawn_empty at hi ⊢
  simp only [List.map_append, List.mem_append] at hi
  simp only
  rcases hi with hi | hi
  · exact Nat.lt_succ_of_lt (h i hi)
  · simp at hi
    omega

/-! Lemmas about component insertion at the data level. -/

lemma EntityData.insert_of_not_mem_keys (d : EntityData) (ty : TypeId) (v : Val)
    (h : ty ∉ d.keys) : d.insert ty v = d ++ [(ty, v)] := by
  induction d with
  | nil => rfl
  | cons c rest ih =>
    obtain ⟨t, u⟩ := c
    simp only [EntityData.keys, List.map_cons, List.mem_cons] at h
    push_neg at h
    have ht : ¬t = ty := fun hh => h.1 hh.symm
    simp only [EntityData.insert, ht, if_false, List.cons_append]
    rw [ih (by simpa [EntityData.keys] using h.2)]

lemma EntityData.foldl_insert_disjoint (src : EntityData) :
    ∀ acc : EntityData, (∀ c ∈ src, c.1 ∉ acc.keys) → src.keys.Nodup →
      src.foldl (fun d c => EntityData.insert d c.1 c.2) acc = acc ++ src := by
  induction src with
  | nil => intro acc _ _; simp
  | cons c rest ih =>
    intro acc hdisj hnodup
    obtain ⟨ty, v⟩ := c
    simp only [EntityData.keys, List.map_cons, List.nodup_cons] at hnodup
    simp only [List.foldl_cons]
    rw [EntityData.insert_of_not_mem_keys acc ty v (hdisj (ty, v) (by simp))]
    rw [ih (acc ++ [(ty, v)])
      (fun c hc => by
        simp only [EntityData.keys, List.map_append, List.mem_append] at *
        push_neg
        refine ⟨?_, ?_⟩
        · have := hdisj c (by simp [hc])
          simpa [EntityData.keys] using this
        · simp only [List.map_cons, List.map_nil, List.mem_singleton]
          intro hcon
          exact hnodup.1 (hcon ▸ List.mem_map_of_mem Prod.fst hc))
      (by simpa [EntityData.keys] using hnodup.2)]
    simp

lemma EntityData.foldl_insert_nodup (src : EntityData) (h : src.keys.Nodup) :
    src.foldl (fun d c => EntityData.insert d c.1 c.2) ([] : EntityData) = src := by
  have := EntityData.foldl_insert_disjoint src [] (by simp [EntityData.keys]) h
  simpa using this

/-! Lemmas about folding component copies over a world. -/

lemma World.foldl_insert_component_registry (src : EntityData) :
    ∀ (w : World) (t : Nat),
      (src.foldl (fun w c => w.insert_component t c.1 c.2) w).registry
        = w.registry := by
  induction src with
  | nil => intro w t; rfl
  | cons c rest ih =>
    intro w t
    simp only [List.foldl_cons]
    rw [ih]
    rfl

lemma World.foldl_insert_component_nextId (src : EntityData) :
    ∀ (w : World) (t : Nat),
      (src.foldl (fun w c => w.insert_component t c.1 c.2) w).nextId
        = w.nextId := by
  induction src with
  | nil => intro w t; rfl
  | cons c rest ih =>
    intro w t
    simp only [List.foldl_cons]
    rw [ih]
    rfl

lemma World.foldl_insert_component_ids (src : EntityData) :
    ∀ (w : World) (t : Nat),
      (src.foldl (fun w c => w.insert_component t c.1 c.2) w).entities.map Prod.fst
        = w.entities.map Prod.fst := by
  induction src with
  | nil => intro w t; rfl
  | cons c rest ih =>
    intro w t
    simp only [List.foldl_cons]
    rw [ih, World.insert_component_ids]

lemma World.foldl_insert_component_wf (src : EntityData) (w : World) (t : Nat)
    (h : w.wf) : (src.foldl (fun w c => w.insert_component t c.1 c.2) w).wf := by
  intro i hi
  rw [World.foldl_insert_component_ids] at hi
  rw [World.foldl_insert_component_nextId]
  exact h i hi

lemma World.foldl_insert_component_get_entity (src : EntityData) :
    ∀ (w : World) (t j : Nat),
      (src.foldl (fun w c => w.insert_component t c.1 c.2) w).get_entity j
        = if j = t then
            (w.get_entity t).map (fun d => src.foldl (fun d c => EntityData.insert d c.1 c.2) d)
          else w.get_entity j := by
  induction src with
  | nil =>
    intro w t j
    simp only [List.foldl_nil]
    by_cases hj : j = t
    · subst hj
      cases h : w.get_entity j <;> simp [h]
    · simp [hj]
  | cons c rest ih =>
    intro w t j
    simp only [List.foldl_cons]
    rw [ih]
    by_cases hj : j = t
    · subst hj
      rw [if_pos rfl, if_pos rfl, World.get_entity_insert_component, if_pos rfl]
      cases h : w.get_entity j <;> simp [h]
    · rw [if_neg hj, if_neg hj, World.get_entity_insert_component, if_neg hj]

/-! Lemmas about `copyAll` (the per-component reflective-copy loop). -/

lemma copyAll_ok (reg : Registry) (src : EntityData) :
    ∀ (dyn : World) (t : Nat), (∀ c ∈ src, c.1 ∈ reg) →
      copyAll reg src dyn t
        = .ok (src.foldl (fun w c => w.insert_component t c.1 c.2) dyn) := by
  induction src with
  | nil => intro dyn t _; rfl
  | cons c rest ih =>
    intro dyn t h
    obtain ⟨ty, v⟩ := c
    have hty : ty ∈ reg := h (ty, v) (by simp)
    simp only [copyAll, hty, if_pos, List.foldl_cons]
    exact ih _ t fun c hc => h c (by simp [hc])

lemma copyAll_registry (reg : Registry) (src : EntityData) :
    ∀ (dyn dyn' : World) (t : Nat), copyAll reg src dyn t = .ok dyn' →
      dyn'.registry = dyn.registry := by
  induction src with
  | nil =>
    intro dyn dyn' t h
    simp only [copyAll] at h
    cases h
    rfl
  | cons c rest ih =>
    intro dyn dyn' t h
    obtain ⟨ty, v⟩ := c
    simp only [copyAll] at h
    by_cases hty : ty ∈ reg
    · rw [if_pos hty] at h
      rw [ih _ _ _ h]
      rfl
    · rw [if_neg hty] at h
      cases h

lemma copyAll_ne_resourceMissing (reg : Registry) (src : EntityData) :
    ∀ (dyn : World) (t : Nat), copyAll reg src dyn t ≠ .error .resourceMissing := by
  induction src with
  | nil => intro dyn t h; cases h
  | cons c rest ih =>
    intro dyn t h
    obtain ⟨ty, v⟩ := c
    simp only [copyAll] at h
    by_cases hty : ty ∈ reg
    · rw [if_pos hty] at h
      exact ih _ _ h
    · rw [if_neg hty] at h
      cases h

/-! Lemmas about scene spawning. -/

lemma World.spawn_scene_contents (s : Scene) :
    ∀ w : World, (w.spawn_scene s).entities.map Prod.snd
        = w.entities.map Prod.snd ++ s := by
  induction s with
  | nil => intro w; simp [World.spawn_scene]
  | cons d rest ih =>
    intro w
    show ((w.spawn d).1.spawn_scene rest).entities.map Prod.snd = _
    rw [ih]
    simp [World.spawn]

lemma World.spawn_scene_registry (s : Scene) :
    ∀ w : World, (w.spawn_scene s).registry = w.registry := by
  induction s with
  | nil => intro w; rfl
  | cons d rest ih =>
    intro w
    show ((w.spawn d).1.spawn_scene rest).registry = _
    rw [ih]
    rfl

/-! Specification of a successful promotion. -/

lemma transfer_spec (dw : DataWorlds) (e : Nat) (src : EntityData) (reg : Registry)
    (hsrc : dw.static_world.get_entity e = some src)
    (hreg : dw.static_world.registry = some reg)
    (htypes : ∀ c ∈ src, c.1 ∈ reg)
    (hwf : dw.dynamic_world.wf) :
    ∃ dw' : DataWorlds,
      dw.transfer e = .ok (dw', some dw.dynamic_world.nextId)
      ∧ dw'.static_world = dw.static_world
      ∧ dw'.dynamic_world.registry = dw.dynamic_world.registry
      ∧ dw'.dynamic_world.nextId = dw.dynamic_world.nextId + 1
      ∧ dw'.dynamic_world.get_entity dw.dynamic_world.nextId
          = some (src.foldl (fun d c => EntityData.insert d c.1 c.2) ([] : EntityData))
      ∧ (∀ j, j ≠ dw.dynamic_world.nextId →
          dw'.dynamic_world.get_entity j = dw.dynamic_world.get_entity j)
      ∧ dw'.dynamic_world.wf := by
  unfold DataWorlds.transfer
  rw [hsrc, hreg]
  simp only
  rw [copyAll_ok reg src _ _ htypes]
  simp only
  have hsnd : (dw.dynamic_world.spawn_empty).2 = dw.dynamic_world.nextId := rfl
  refine ⟨_, rfl, rfl, ?_, ?_, ?_, ?_, ?_⟩
  · rw [World.foldl_insert_component_registry]
    rfl
  · rw [World.foldl_insert_component_nextId]
    rfl
  · rw [World.foldl_insert_component_get_entity, hsnd, if_pos rfl,
      World.get_entity_spawn_empty_self dw.dynamic_world hwf]
    rfl
  · intro j hj
    rw [World.foldl_insert_component_get_entity, hsnd, if_neg hj,
      World.get_entity_spawn_empty_other dw.dynamic_world j hj]
  · exact World.foldl_insert_component_wf _ _ _
      (World.spawn_empty_wf dw.dynamic_world hwf)

/-! Frame lemmas: promotion and mutable access never touch the static world. -/

lemma transfer_static_world (dw : DataWorlds) (e : Nat)
    (r : DataWorlds × Option Nat) (h : dw.transfer e = .ok r) :
    r.1.static_world = dw.static_world := by
  unfold DataWorlds.transfer at h
  cases hs : dw.static_world.get_entity e with
  | none =>
    rw [hs] at h
    simp only at h
    cases h
    rfl
  | some src =>
    rw [hs] at h
    simp only at h
    cases hr : dw.static_world.registry with
    | none => rw [hr] at h; cases h
    | some reg =>
      rw [hr] at h
      simp only at h
      cases hc : copyAll reg src (dw.dynamic_world.spawn_empty).1
          (dw.dynamic_world.spawn_empty).2 with
      | error err => rw [hc] at h; cases h
      | ok dyn =>
        rw [hc] at h
        cases h
        rfl

lemma transfer_dynamic_registry (dw : DataWorlds) (e : Nat)
    (r : DataWorlds × Option Nat) (h : dw.transfer e = .ok r) :
    r.1.dynamic_world.registry = dw.dynamic_world.registry := by
  unfold DataWorlds.transfer at h
  cases hs : dw.static_world.get_entity e with
  | none =>
    rw [hs] at h
    simp only at h
    cases h
    rfl
  | some src =>
    rw [hs] at h
    simp only at h
    cases hr : dw.static_world.registry with
    | none => rw [hr] at h; cases h
    | some reg =>
      rw [hr] at h
      simp only at h
      cases hc : copyAll reg src (dw.dynamic_world.spawn_empty).1
          (dw.dynamic_world.spawn_empty).2 with
      | error err => rw [hc] at h; cases h
      | ok dyn =>
        rw [hc] at h
        cases h
        show dyn.registry = dw.dynamic_world.registry
        exact copyAll_registry reg src (dw.dynamic_world.spawn_empty).1 dyn
          (dw.dynamic_world.spawn_empty).2 hc

lemma transfer_ne_resourceMissing (dw : DataWorlds) (e : Nat)
    (h : dw.static_world.registry.isSome) :
    dw.transfer e ≠ .error .resourceMissing := by
  unfold DataWorlds.transfer
  cases hs : dw.static_world.get_entity e with
  | none => intro hh; cases hh
  | some src =>
    simp only
    cases hr : dw.static_world.registry with
    | none => rw [hr] at h; cases h
    | some reg =>
      simp only
      cases hc : copyAll reg src (dw.dynamic_world.spawn_empty).1
          (dw.dynamic_world.spawn_empty).2 with
      | error err =>
        intro hh
        cases hh
        exact copyAll_ne_resourceMissing reg src _ _ hc
      | ok dyn => intro hh; cases hh

lemma get_mut_static_world (dw : DataWorlds) (ptr : DataRef)
    (dw' : DataWorlds) (r : DataMut) (h : dw.get_mut ptr = .ok (dw', r)) :
    dw'.static_world = dw.static_world := by
  cases ptr with
  | Null =>
    simp only [DataWorlds.get_mut] at h
    cases h
    rfl
  | Dynamic e =>
    simp only [DataWorlds.get_mut] at h
    cases hd : dw.dynamic_world.get_entity e with
    | none => simp only [hd] at h; cases h; rfl
    | some d => simp only [hd] at h; cases h; rfl
  | Static e =>
    simp only [DataWorlds.get_mut] at h
    cases ht : dw.transfer e with
    | error err => simp only [ht] at h; cases h
    | ok p =>
      obtain ⟨dw1, t?⟩ := p
      rw [ht] at h
      cases t? with
      | none =>
        simp only at h
        cases h
        exact transfer_static_world dw e _ ht
      | some t =>
        simp only at h
        cases hd : dw1.dynamic_world.get_entity t with
        | none =>
          simp only [hd] at h
          cases h
          exact transfer_static_world dw e _ ht
        | some d =>
          simp only [hd] at h
          cases h
          exact transfer_static_world dw e _ ht

lemma get_mut_dynamic_registry (dw : DataWorlds) (ptr : DataRef)
    (dw' : DataWorlds) (r : DataMut) (h : dw.get_mut ptr = .ok (dw', r)) :
    dw'.dynamic_world.registry = dw.dynamic_world.registry := by
  cases ptr with
  | Null =>
    simp only [DataWorlds.get_mut] at h
    cases h
    rfl
  | Dynamic e =>
    simp only [DataWorlds.get_mut] at h
    cases hd : dw.dynamic_world.get_entity e with
    | none => simp only [hd] at h; cases h; rfl
    | some d => simp only [hd] at h; cases h; rfl
  | Static e =>
    simp only [DataWorlds.get_mut] at h
    cases ht : dw.transfer e with
    | error err => simp only [ht] at h; cases h
    | ok p =>
      obtain ⟨dw1, t?⟩ := p
      rw [ht] at h
      cases t? with
      | none =>
        simp only at h
        cases h
        exact transfer_dynamic_registry dw e _ ht
      | some t =>
        simp only at h
        cases hd : dw1.dynamic_world.get_entity t with
        | none =>
          simp only [hd] at h
          cases h
          exact transfer_dynamic_registry dw e _ ht
        | some d =>
          simp only [hd] at h
          cases h
          exact transfer_dynamic_registry dw e _ ht

lemma entity_mut_eq_get_mut_of_ne_null (dw : DataWorlds) (ptr : DataRef)
    (h : ptr ≠ .Null) : dw.entity_mut ptr = dw.get_mut ptr := by
  cases ptr with
  | Null => exact absurd rfl h
  | Static e => rfl
  | Dynamic e => rfl

/-- Specification of a successful reload of the dynamic world. -/
lemma reload_spec (dw : DataWorlds) (s : Scene) (reg : Registry)
    (hreg : dw.dynamic_world.registry = some reg) :
    ∃ dw', dw.reload_dynamic_data s = .ok dw'
      ∧ dw'.static_world = dw.static_world
      ∧ dw'.dynamic_world.registry = dw.dynamic_world.registry
      ∧ dw'.dynamic_world.entities.map Prod.snd = s := by
  unfold DataWorlds.reload_dynamic_data World.remove_resource
  rw [hreg]
  simp only
  refine ⟨_, rfl, rfl, ?_, ?_⟩
  · rw [World.spawn_scene_registry]
    rfl
  · rw [World.spawn_scene_contents]
    rfl

/-! Claim theorems. -/

/-- C1: `get_mut` resolves a tagged reference as follows: `Null` yields
`Missing`; `Dynamic(id)` yields `Missing` when the id is absent from the
dynamic world and `Found(view)` when present; `Static(id)` yields
`Missing` when the id is absent from the static world, and otherwise
yields `Moved(view_in_dynamic_world, Dynamic(new_id))` where `new_id` is
the freshly created dynamic-world twin (absent before the call, holding
a copy of the source's components after it), surfacing the new tagged
reference to the caller. -/
theorem C1_get_mut_resolution (dw : DataWorlds) (e : Nat) (src : EntityData)
    (reg : Registry)
    (hreg : dw.static_world.registry = some reg)
    (htypes : ∀ c ∈ src, c.1 ∈ reg)
    (hnodup : src.keys.Nodup)
    (hwf : dw.dynamic_world.wf) :
    dw.get_mut .Null = .ok (dw, .Missing)
    ∧ (dw.dynamic_world.get_entity e = none →
        dw.get_mut (.Dynamic e) = .ok (dw, .Missing))
    ∧ (∀ d, dw.dynamic_world.get_entity e = some d →
        dw.get_mut (.Dynamic e) = .ok (dw, .Found e))
    ∧ (dw.static_world.get_entity e = none →
        dw.get_mut (.Static e) = .ok (dw, .Missing))
    ∧ (dw.static_world.get_entity e = some src →
        ∃ dw', dw.get_mut (.Static e)
            = .ok (dw', .Moved dw.dynamic_world.nextId
                (.Dynamic dw.dynamic_world.nextId))
          ∧ dw.dynamic_world.get_entity dw.dynamic_world.nextId = none
          ∧ dw'.dynamic_world.get_entity dw.dynamic_world.nextId = some src) := by
  refine ⟨rfl, ?_, ?_, ?_, ?_⟩
  · intro h
    simp [DataWorlds.get_mut, h]
  · intro d h
    simp [DataWorlds.get_mut, h]
  · intro h
    simp [DataWorlds.get_mut, DataWorlds.transfer, h]
  · intro h
    obtain ⟨dw', h1, _, _, _, h5, _, _⟩ :=
      transfer_spec dw e src reg h hreg htypes hwf
    rw [EntityData.foldl_insert_nodup src hnodup] at h5
    refine ⟨dw', ?_, World.spawn_empty_fresh dw.dynamic_world hwf, h5⟩
    simp only [DataWorlds.get_mut]
    rw [h1]
    simp only
    rw [h5]

/-- C1 witness: the resolution cases evaluated on the concrete demo
store at entity B. -/
theorem C1_get_mut_resolution_witness :
    (demoDW.static_world.registry = some demoRegistry
      ∧ (∀ c ∈ demoB, c.1 ∈ demoRegistry)
      ∧ demoB.keys.Nodup
      ∧ demoDW.dynamic_world.wf)
    ∧ (demoDW.get_mut .Null = .ok (demoDW, .Missing)
      ∧ (demoDW.dynamic_world.get_entity 1 = none →
          demoDW.get_mut (.Dynamic 1) = .ok (demoDW, .Missing))
      ∧ (∀ d, demoDW.dynamic_world.get_entity 1 = some d →
          demoDW.get_mut (.Dynamic 1) = .ok (demoDW, .Found 1))
      ∧ (demoDW.static_world.get_entity 1 = none →
          demoDW.get_mut (.Static 1) = .ok (demoDW, .Missing))
      ∧ (demoDW.static_world.get_entity 1 = some demoB →
          ∃ dw', demoDW.get_mut (.Static 1)
              = .ok (dw', .Moved demoDW.dynamic_world.nextId
                  (.Dynamic demoDW.dynamic_world.nextId))
            ∧ demoDW.dynamic_world.get_entity demoDW.dynamic_world.nextId = none
            ∧ dw'.dynamic_world.get_entity demoDW.dynamic_world.nextId
                = some demoB)) :=
  ⟨⟨by decide, by decide, by decide, by decide⟩,
    C1_get_mut_resolution demoDW 1 demoB demoRegistry (by decide) (by decide)
      (by decide) (by decide)⟩

/-- C4: for an id absent from the static world, mutable access through
`Static(id)` yields `Missing` (not a panic) through both accessors, and
the store is returned unchanged: no entity is spawned in the dynamic
world, and neither world is mutated. -/
theorem C4_missing_source_no_mutation (dw : DataWorlds) (e : Nat)
    (h : dw.static_world.get_entity e = none) :
    dw.get_mut (.Static e) = .ok (dw, .Missing)
    ∧ dw.entity_mut (.Static e) = .ok (dw, .Missing) := by
  constructor <;>
    simp [DataWorlds.get_mut, DataWorlds.entity_mut, DataWorlds.transfer, h]

/-- C4 witness: promoting the never-spawned static id 5 of the demo
store yields `Missing` and leaves the store unchanged. -/
theorem C4_missing_source_no_mutation_witness :
    demoDW.static_world.get_entity 5 = none
    ∧ (demoDW.get_mut (.Static 5) = .ok (demoDW, .Missing)
      ∧ demoDW.entity_mut (.Static 5) = .ok (demoDW, .Missing)) :=
  ⟨by decide, C4_missing_source_no_mutation demoDW 5 (by decide)⟩

/-- C5: the asserting accessors treat `Null` as a fatal contract
violation while the non-asserting ones do not: `entity_mut(Null)` panics
whereas `get_mut(Null)` returns `Missing`; `entity(ptr)` panics exactly
when `ptr` is `Null` or resolves to an id absent from its addressed
world, which are exactly the cases in which `get(ptr)` returns `none`. -/
theorem C5_null_asserting_accessors (dw : DataWorlds) :
    dw.entity_mut .Null = .error .nullRef
    ∧ dw.get_mut .Null = .ok (dw, .Missing)
    ∧ dw.entity .Null = .error .nullRef
    ∧ ∀ ptr : DataRef, exOk (dw.entity ptr) = (dw.get ptr).isSome := by
  refine ⟨rfl, rfl, rfl, ?_⟩
  intro ptr
  cases ptr with
  | Null => rfl
  | Static e =>
    simp only [DataWorlds.entity, DataWorlds.get]
    cases dw.static_world.get_entity e <;> rfl
  | Dynamic e =>
    simp only [DataWorlds.entity, DataWorlds.get]
    cases dw.dynamic_world.get_entity e <;> rfl

/-- C10: an entity of the static world with zero attached components can
still be promoted: mutable access through `Static(id)` returns `Moved`
with a newly spawned dynamic-world entity that has no attached
components (the per-component copy loop runs zero times). -/
theorem C10_empty_entity_promotes (dw : DataWorlds) (e : Nat) (reg : Registry)
    (hsrc : dw.static_world.get_entity e = some ([] : EntityData))
    (hreg : dw.static_world.registry = some reg)
    (hwf : dw.dynamic_world.wf) :
    ∃ dw', dw.get_mut (.Static e)
        = .ok (dw', .Moved dw.dynamic_world.nextId
            (.Dynamic dw.dynamic_world.nextId))
      ∧ dw.dynamic_world.get_entity dw.dynamic_world.nextId = none
      ∧ dw'.dynamic_world.get_entity dw.dynamic_world.nextId
          = some ([] : EntityData) := by
  obtain ⟨dw', h1, _, _, _, h5, _, _⟩ :=
    transfer_spec dw e [] reg hsrc hreg (by simp) hwf
  simp only [List.foldl_nil] at h5
  refine ⟨dw', ?_, World.spawn_empty_fresh dw.dynamic_world hwf, h5⟩
  simp only [DataWorlds.get_mut]
  rw [h1]
  simp only
  rw [h5]

/-- C10 witness: a store whose static world holds the component-less
entity 0; promoting it yields `Moved` with an empty dynamic twin. -/
theorem C10_empty_entity_promotes_witness :
    ((DataWorlds.from_scenes demoRegistry (some [[]]) none).static_world.get_entity 0
        = some ([] : EntityData)
      ∧ (DataWorlds.from_scenes demoRegistry (some [[]]) none).static_world.registry
          = some demoRegistry
      ∧ (DataWorlds.from_scenes demoRegistry (some [[]]) none).dynamic_world.wf)
    ∧ ∃ dw', (DataWorlds.from_scenes demoRegistry (some [[]]) none).get_mut (.Static 0)
        = .ok (dw', .Moved
            (DataWorlds.from_scenes demoRegistry (some [[]]) none).dynamic_world.nextId
            (.Dynamic
              (DataWorlds.from_scenes demoRegistry (some [[]]) none).dynamic_world.nextId))
      ∧ (DataWorlds.from_scenes demoRegistry (some [[]]) none).dynamic_world.get_entity
          (DataWorlds.from_scenes demoRegistry (some [[]]) none).dynamic_world.nextId = none
      ∧ dw'.dynamic_world.get_entity
          (DataWorlds.from_scenes demoRegistry (some [[]]) none).dynamic_world.nextId
            = some ([] : EntityData) :=
  ⟨⟨by decide, by decide, by decide⟩,
    C10_empty_entity_promotes (DataWorlds.from_scenes demoRegistry (some [[]]) none)
      0 demoRegistry (by decide) (by decide) (by decide)⟩

/-- C2: promotion is idempotent in content but not in identity: for an
id present in the static world, promoting it twice through `Static(id)`
yields two distinct dynamic-world ids, each whose attached component
types and values equal the source entity's at its time of promotion, and
mutating one copy does not affect the other copy. -/
theorem C2_promote_twice_distinct (dw : DataWorlds) (e : Nat) (src : EntityData)
    (reg : Registry)
    (hsrc : dw.static_world.get_entity e = some src)
    (hreg : dw.static_world.registry = some reg)
    (htypes : ∀ c ∈ src, c.1 ∈ reg)
    (hnodup : src.keys.Nodup)
    (hwf : dw.dynamic_world.wf) :
    ∃ dw1 dw2 t1 t2,
      dw.get_mut (.Static e) = .ok (dw1, .Moved t1 (.Dynamic t1))
      ∧ dw1.get_mut (.Static e) = .ok (dw2, .Moved t2 (.Dynamic t2))
      ∧ t1 ≠ t2
      ∧ dw2.dynamic_world.get_entity t1 = some src
      ∧ dw2.dynamic_world.get_entity t2 = some src
      ∧ ∀ ty v, (dw2.set_dynamic t1 ty v).dynamic_world.get_entity t2 = some src
          ∧ (dw2.set_dynamic t2 ty v).dynamic_world.get_entity t1 = some src := by
  obtain ⟨dw1, h1, hstat1, _, hnext1, hget1, _, hwf1⟩ :=
    transfer_spec dw e src reg hsrc hreg htypes hwf
  rw [EntityData.foldl_insert_nodup src hnodup] at hget1
  have hsrc1 : dw1.static_world.get_entity e = some src := by
    rw [hstat1]; exact hsrc
  have hreg1 : dw1.static_world.registry = some reg := by
    rw [hstat1]; exact hreg
  obtain ⟨dw2, h2, _, _, _, hget2, hframe2, _⟩ :=
    transfer_spec dw1 e src reg hsrc1 hreg1 htypes hwf1
  rw [EntityData.foldl_insert_nodup src hnodup] at hget2
  have hne : dw.dynamic_world.nextId ≠ dw1.dynamic_world.nextId := by
    rw [hnext1]; omega
  have hm1 : dw.get_mut (.Static e)
      = .ok (dw1, .Moved dw.dynamic_world.nextId
          (.Dynamic dw.dynamic_world.nextId)) := by
    simp only [DataWorlds.get_mut]
    rw [h1]
    simp only
    rw [hget1]
  have hm2 : dw1.get_mut (.Static e)
      = .ok (dw2, .Moved dw1.dynamic_world.nextId
          (.Dynamic dw1.dynamic_world.nextId)) := by
    simp only [DataWorlds.get_mut]
    rw [h2]
    simp only
    rw [hget2]
  have hcopy1 : dw2.dynamic_world.get_entity dw.dynamic_world.nextId = some src := by
    rw [hframe2 _ hne]
    exact hget1
  refine ⟨dw1, dw2, dw.dynamic_world.nextId, dw1.dynamic_world.nextId,
    hm1, hm2, hne, hcopy1, hget2, ?_⟩
  intro ty v
  constructor
  · show (dw2.dynamic_world.insert_component dw.dynamic_world.nextId ty v).get_entity
        dw1.dynamic_world.nextId = some src
    rw [World.get_entity_insert_component, if_neg (fun hh => hne hh.symm)]
    exact hget2
  · show (dw2.dynamic_world.insert_component dw1.dynamic_world.nextId ty v).get_entity
        dw.dynamic_world.nextId = some src
    rw [World.get_entity_insert_component, if_neg hne]
    exact hcopy1

/-- C2 witness: promoting the demo entity B twice yields two distinct
dynamic copies with B's content, independent under mutation. -/
theorem C2_promote_twice_distinct_witness :
    (demoDW.static_world.get_entity 1 = some demoB
      ∧ demoDW.static_world.registry = some demoRegistry
      ∧ (∀ c ∈ demoB, c.1 ∈ demoRegistry)
      ∧ demoB.keys.Nodup
      ∧ demoDW.dynamic_world.wf)
    ∧ ∃ dw1 dw2 t1 t2,
      demoDW.get_mut (.Static 1) = .ok (dw1, .Moved t1 (.Dynamic t1))
      ∧ dw1.get_mut (.Static 1) = .ok (dw2, .Moved t2 (.Dynamic t2))
      ∧ t1 ≠ t2
      ∧ dw2.dynamic_world.get_entity t1 = some demoB
      ∧ dw2.dynamic_world.get_entity t2 = some demoB
      ∧ ∀ ty v, (dw2.set_dynamic t1 ty v).dynamic_world.get_entity t2 = some demoB
          ∧ (dw2.set_dynamic t2 ty v).dynamic_world.get_entity t1 = some demoB :=
  ⟨⟨by decide, by decide, by decide, by decide, by decide⟩,
    C2_promote_twice_distinct demoDW 1 demoB demoRegistry (by decide) (by decide)
      (by decide) (by decide) (by decide)⟩

/-- C3: tier isolation: promotion never mutates the static world.
Promoting any entity `a` (including `e` itself) leaves the static world
identical, so resolving `Static(e)` for read access before and after the
promotion yields identical attached component values; and mutating any
dynamic-world entity (in particular the promoted copy) leaves the static
world and every static entity's values unchanged. -/
theorem C3_tier_isolation (dw : DataWorlds) (a e : Nat) (src : EntityData)
    (reg : Registry)
    (hsrc : dw.static_world.get_entity a = some src)
    (hreg : dw.static_world.registry = some reg)
    (htypes : ∀ c ∈ src, c.1 ∈ reg)
    (hwf : dw.dynamic_world.wf) :
    ∃ dw', dw.get_mut (.Static a)
        = .ok (dw', .Moved dw.dynamic_world.nextId
            (.Dynamic dw.dynamic_world.nextId))
      ∧ dw'.static_world = dw.static_world
      ∧ dw'.get (.Static e) = dw.get (.Static e)
      ∧ ∀ t ty v, (dw'.set_dynamic t ty v).get (.Static e) = dw.get (.Static e)
          ∧ (dw'.set_dynamic t ty v).static_world = dw.static_world := by
  obtain ⟨dw', h1, hstat, _, _, hget, _, _⟩ :=
    transfer_spec dw a src reg hsrc hreg htypes hwf
  have hm : dw.get_mut (.Static a)
      = .ok (dw', .Moved dw.dynamic_world.nextId
          (.Dynamic dw.dynamic_world.nextId)) := by
    simp only [DataWorlds.get_mut]
    rw [h1]
    simp only
    rw [hget]
  refine ⟨dw', hm, hstat, ?_, ?_⟩
  · simp only [DataWorlds.get, hstat]
  · intro t ty v
    constructor
    · simp only [DataWorlds.get, DataWorlds.set_dynamic, hstat]
    · simp only [DataWorlds.set_dynamic, hstat]

/-- C3 witness: promoting the demo entity B leaves both static entities
A and B readable with unchanged values, also after mutating the copy. -/
theorem C3_tier_isolation_witness :
    (demoDW.static_world.get_entity 1 = some demoB
      ∧ demoDW.static_world.registry = some demoRegistry
      ∧ (∀ c ∈ demoB, c.1 ∈ demoRegistry)
      ∧ demoDW.dynamic_world.wf)
    ∧ ∃ dw', demoDW.get_mut (.Static 1)
        = .ok (dw', .Moved demoDW.dynamic_world.nextId
            (.Dynamic demoDW.dynamic_world.nextId))
      ∧ dw'.static_world = demoDW.static_world
      ∧ dw'.get (.Static 0) = demoDW.get (.Static 0)
      ∧ ∀ t ty v, (dw'.set_dynamic t ty v).get (.Static 0) = demoDW.get (.Static 0)
          ∧ (dw'.set_dynamic t ty v).static_world = demoDW.static_world :=
  ⟨⟨by decide, by decide, by decide, by decide⟩,
    C3_tier_isolation demoDW 1 0 demoB demoRegistry (by decide) (by decide)
      (by decide) (by decide)⟩

/-- C6: reload replaces, never merges: after reloading the dynamic world
from snapshot `s`, the dynamic world contains exactly the entities
described by `s` (in particular none of the entities present before the
call), the operation reuses the registry instance taken out of the
discarded dynamic world, and the static world is unchanged. -/
theorem C6_reload_replaces (dw : DataWorlds) (s : Scene) (reg : Registry)
    (hreg : dw.dynamic_world.registry = some reg) :
    ∃ dw', dw.reload_dynamic_data s = .ok dw'
      ∧ dw'.static_world = dw.static_world
      ∧ dw'.dynamic_world.registry = dw.dynamic_world.registry
      ∧ dw'.dynamic_world.entities.map Prod.snd = s :=
  reload_spec dw s reg hreg

/-- C6 witness: reloading the demo store's dynamic world from a
one-entity snapshot. -/
theorem C6_reload_replaces_witness :
    demoDW.dynamic_world.registry = some demoRegistry
    ∧ ∃ dw', demoDW.reload_dynamic_data [demoA] = .ok dw'
      ∧ dw'.static_world = demoDW.static_world
      ∧ dw'.dynamic_world.registry = demoDW.dynamic_world.registry
      ∧ dw'.dynamic_world.entities.map Prod.snd = [demoA] :=
  ⟨by decide, C6_reload_replaces demoDW [demoA] demoRegistry (by decide)⟩

/-- C8: round-trip: for either world, feeding the snapshot produced by
that world's serialize operation back through the corresponding
construction (static) or reload (dynamic) path yields a world whose
entities have the same attached component types and values, in the same
order, as the original world (content-equal; id equality is not
required). -/
theorem C8_round_trip (dw : DataWorlds) (txtS txtD : Scene)
    (hs : dw.serialize_static_ron = .ok txtS)
    (hd : dw.serialize_dynamic_ron = .ok txtD) :
    ∃ regS, dw.static_world.registry = some regS
      ∧ (DataWorlds.from_scenes regS (some txtS) none).static_world.entities.map
          Prod.snd = dw.static_world.entities.map Prod.snd
      ∧ ∃ dw', dw.reload_dynamic_data txtD = .ok dw'
          ∧ dw'.dynamic_world.entities.map Prod.snd
              = dw.dynamic_world.entities.map Prod.snd := by
  unfold DataWorlds.serialize_static_ron serialize_world_ron at hs
  unfold DataWorlds.serialize_dynamic_ron serialize_world_ron at hd
  cases hrs : dw.static_world.registry with
  | none => rw [hrs] at hs; cases hs
  | some regS =>
    rw [hrs] at hs
    simp only at hs
    by_cases hser : serializable regS dw.static_world
    · rw [if_pos hser] at hs
      cases hrd : dw.dynamic_world.registry with
      | none => rw [hrd] at hd; cases hd
      | some regD =>
        rw [hrd] at hd
        simp only at hd
        by_cases hserd : serializable regD dw.dynamic_world
        · rw [if_pos hserd] at hd
          cases hs
          cases hd
          refine ⟨regS, rfl, ?_, ?_⟩
          · show (((World.new.insert_resource regS).spawn_scene
                (dw.static_world.entities.map Prod.snd)).entities.map Prod.snd) = _
            rw [World.spawn_scene_contents]
            rfl
          · obtain ⟨dw', h1, _, _, h4⟩ :=
              reload_spec dw (dw.dynamic_world.entities.map Prod.snd) regD hrd
            exact ⟨dw', h1, h4⟩
        · rw [if_neg hserd] at hd
          cases hd
    · rw [if_neg hser] at hs
      cases hs

/-- C8 witness: the demo store serializes both worlds successfully and
both snapshots reload to content-equal worlds. -/
theorem C8_round_trip_witness :
    (demoDW.serialize_static_ron = .ok [demoA, demoB]
      ∧ demoDW.serialize_dynamic_ron = .ok [])
    ∧ ∃ regS, demoDW.static_world.registry = some regS
      ∧ (DataWorlds.from_scenes regS (some [demoA, demoB]) none).static_world.entities.map
          Prod.snd = demoDW.static_world.entities.map Prod.snd
      ∧ ∃ dw', demoDW.reload_dynamic_data [] = .ok dw'
          ∧ dw'.dynamic_world.entities.map Prod.snd
              = demoDW.dynamic_world.entities.map Prod.snd :=
  ⟨⟨by rfl, by rfl⟩,
    C8_round_trip demoDW [demoA, demoB] [] (by rfl) (by rfl)⟩

/-- C9 counterexample: not every public operation preserves the
registry-resource invariant: `modify_static_data` runs an arbitrary
caller-supplied system against the static world, and a system that
removes the `AppTypeRegistry` resource leaves a constructed store whose
static world no longer holds the resource. -/
theorem C9_registry_invariant_counterexample :
    ((DataWorlds.from_scenes demoRegistry none none).modify_static_data
        (fun w => (w.remove_resource.1, ()))).1.static_world.registry = none := by
  decide

/-- C9 (amended): construction installs the `AppTypeRegistry` resource
in both worlds, and every public operation other than
`modify_static_data` preserves this invariant (`modify_static_data`
preserves it exactly when the caller-supplied system leaves the resource
in place); under the invariant, the internal registry lookups —
`remove_resource` + expect in reload, `resource()` in transfer and in
the serializers — never report a missing resource. -/
theorem C9_registry_invariant :
    (∀ (reg : Registry) (s d : Option Scene),
      regInv (DataWorlds.from_scenes reg s d))
    ∧ (∀ (dw dw' : DataWorlds) (p : DataRef) (r : DataMut),
        regInv dw → dw.get_mut p = .ok (dw', r) → regInv dw')
    ∧ (∀ (dw : DataWorlds) (p : DataRef),
        regInv dw → dw.get_mut p ≠ .error .resourceMissing)
    ∧ (∀ (dw dw' : DataWorlds) (p : DataRef) (r : DataMut),
        regInv dw → dw.entity_mut p = .ok (dw', r) → regInv dw')
    ∧ (∀ (dw : DataWorlds) (p : DataRef),
        regInv dw → dw.entity_mut p ≠ .error .resourceMissing)
    ∧ (∀ (dw : DataWorlds) (s : Scene),
        regInv dw → ∃ dw', dw.reload_dynamic_data s = .ok dw' ∧ regInv dw')
    ∧ (∀ dw : DataWorlds, regInv dw →
        dw.serialize_static_ron ≠ .error .resourceMissing
        ∧ dw.serialize_dynamic_ron ≠ .error .resourceMissing)
    ∧ (∀ (dw : DataWorlds) (f : World → World × Unit),
        regInv dw → (f dw.static_world).1.registry.isSome →
        regInv (dw.modify_static_data f).1) := by
  have hmut : ∀ (dw dw' : DataWorlds) (p : DataRef) (r : DataMut),
      regInv dw → dw.get_mut p = .ok (dw', r) → regInv dw' := by
    intro dw dw' p r hinv h
    constructor
    · rw [get_mut_static_world dw p dw' r h]
      exact hinv.1
    · rw [get_mut_dynamic_registry dw p dw' r h]
      exact hinv.2
  have hrm : ∀ (dw : DataWorlds) (p : DataRef),
      regInv dw → dw.get_mut p ≠ .error .resourceMissing := by
    intro dw p hinv
    cases p with
    | Null => intro hh; cases hh
    | Dynamic e =>
      simp only [DataWorlds.get_mut]
      cases hd : dw.dynamic_world.get_entity e <;> intro hh <;> cases hh
    | Static e =>
      simp only [DataWorlds.get_mut]
      cases ht : dw.transfer e with
      | error err =>
        simp only
        intro hh
        cases hh
        exact transfer_ne_resourceMissing dw e hinv.1 ht
      | ok pr =>
        obtain ⟨dw1, t?⟩ := pr
        cases t? with
        | none => intro hh; cases hh
        | some t =>
          simp only
          cases hd : dw1.dynamic_world.get_entity t <;> intro hh <;> cases hh
  refine ⟨?_, hmut, hrm, ?_, ?_, ?_, ?_, ?_⟩
  · intro reg s d
    cases s <;> cases d <;>
      constructor <;>
        simp [DataWorlds.from_scenes, World.spawn_scene_registry,
          World.insert_resource]
  · intro dw dw' p r hinv h
    cases hp : p == .Null with
    | true =>
      rw [show p = .Null from by cases p <;> simp_all] at h
      simp only [DataWorlds.entity_mut] at h
      cases h
    | false =>
      have hne : p ≠ .Null := by cases p <;> simp_all
      rw [entity_mut_eq_get_mut_of_ne_null dw p hne] at h
      exact hmut dw dw' p r hinv h
  · intro dw p hinv
    cases hp : p == .Null with
    | true =>
      rw [show p = .Null from by cases p <;> simp_all]
      intro hh
      cases hh
    | false =>
      have hne : p ≠ .Null := by cases p <;> simp_all
      rw [entity_mut_eq_get_mut_of_ne_null dw p hne]
      exact hrm dw p hinv
  · intro dw s hinv
    obtain ⟨reg, hreg⟩ := Option.isSome_iff_exists.mp hinv.2
    obtain ⟨dw', h1, h2, h3, _⟩ := reload_spec dw s reg hreg
    refine ⟨dw', h1, ?_, ?_⟩
    · rw [h2]
      exact hinv.1
    · rw [h3]
      exact hinv.2
  · intro dw hinv
    constructor
    · obtain ⟨reg, hreg⟩ := Option.isSome_iff_exists.mp hinv.1
      unfold DataWorlds.serialize_static_ron serialize_world_ron
      rw [hreg]
      simp only
      by_cases hser : serializable reg dw.static_world
      · rw [if_pos hser]
        intro hh
        cases hh
      · rw [if_neg hser]
        intro hh
        cases hh
    · obtain ⟨reg, hreg⟩ := Option.isSome_iff_exists.mp hinv.2
      unfold DataWorlds.serialize_dynamic_ron serialize_world_ron
      rw [hreg]
      simp only
      by_cases hser : serializable reg dw.dynamic_world
      · rw [if_pos hser]
        intro hh
        cases hh
      · rw [if_neg hser]
        intro hh
        cases hh
  · intro dw f hinv hf
    exact ⟨hf, hinv.2⟩

end DW
